import Mathlib

/-!
Verification of the Chromatek RGB push-button switch driver
(`chromatek_switch.py`).

The driver is a facade over two hardware capabilities:
a WS2812B pixel strip (`rpi_ws281x.PixelStrip`) and a GPIO digital
input (`RPi.GPIO`).  We embed the facade state shallowly: the
committed LED color and brightness, the liveness of the two
hardware handles, the listener registries, the
event-detection flag, and the debounce timestamp kept by the GPIO
library for `add_event_detect(..., bouncetime=200)`.

Callbacks are modelled as opaque identifiers (`Nat`); a dispatch is
observed as the list of invoked callback identifiers, in invocation
order.  Fields that model external-library state (the GPIO
channel setup record, the bouncetime timestamp, the count of
`add_event_detect` calls) are noted at their declaration; their
behaviour is taken from the documented interface of the external
libraries as described at the interface boundary of the spec.
-/

namespace Chromatek

/-- Raw electrical level on the button input line. -/
inductive Level where
  | high
  | low
deriving DecidableEq, Repr

/-- Direction of a raw edge delivered by the GPIO event machinery.
The handler is registered for `GPIO.BOTH`, so both directions are
delivered. -/
inductive EdgeDir where
  | rising
  | falling
deriving DecidableEq, Repr

/-- Error raised by the `RPi.GPIO` library when a channel is used
without (or after the teardown of) `GPIO.setup`: the
`RuntimeError` for a channel that is not set up. -/
inductive GpioError where
  | channelNotSetup
deriving DecidableEq, Repr

/-- State of one `ChromatekSwitch` facade instance, together with the
external-library state it owns.

Fields from the Python object itself:
`pressCallbacks` (`_press_callbacks`), `releaseCallbacks`
(`_release_callbacks`), `buttonEventAdded` (`_button_event_added`).

Fields observing the external capabilities:
* `pixelColor`, `brightness` — the packed color and the brightness
  value last committed to the strip (pixel 0 of the single-LED strip);
* `pixelAcquired` — the `PixelStrip`/ws2811 handle is live;
* `gpioSetup` — the button channel is set up in `RPi.GPIO`
  (made false by `GPIO.cleanup()`);
* `eventDetectCalls` — how many times `GPIO.add_event_detect` was
  invoked on the channel;
* `lastAccepted` — the bouncetime timestamp the GPIO event machinery
  keeps: the time of the last accepted (reported) edge, `none` before
  any edge was reported;
* `cleanupCalls` — instrumentation counting invocations of
  `cleanup()`. -/
structure ChromatekSwitch where
  pixelColor : Nat
  brightness : Nat
  pixelAcquired : Bool
  gpioSetup : Bool
  pressCallbacks : List Nat
  releaseCallbacks : List Nat
  buttonEventAdded : Bool
  eventDetectCalls : Nat
  lastAccepted : Option Nat
  cleanupCalls : Nat
deriving DecidableEq, Repr

/-- The `bouncetime=200` argument passed to `GPIO.add_event_detect`
(milliseconds). -/
def BOUNCETIME : Nat := 200

/-- `rpi_ws281x.Color(red, green, blue)` with the default `white=0`:
the packed 24-bit value `(red << 16) | (green << 8) | blue`.  No
masking or validation is performed on the arguments. -/
def Color (red green blue : Nat) : Nat :=
  red <<< 16 ||| green <<< 8 ||| blue

/-- `set_color(red, green, blue)`: packs the channels with `Color`,
writes pixel 0 and shows the strip.  The strip is independent of the
GPIO subsystem, so this never fails, and performs no range check. -/
def set_color (s : ChromatekSwitch) (red green blue : Nat) : ChromatekSwitch :=
  { s with pixelColor := Color red green blue }

/-- `turn_on(red, green, blue)`: sugar for `set_color`. -/
def turn_on (s : ChromatekSwitch) (red green blue : Nat) : ChromatekSwitch :=
  set_color s red green blue

/-- `turn_off()`: `set_color(0, 0, 0)`. -/
def turn_off (s : ChromatekSwitch) : ChromatekSwitch :=
  set_color s 0 0 0

/-- `set_brightness(brightness)`: forwards the value to
`strip.setBrightness` and shows; no range check in the driver. -/
def set_brightness (s : ChromatekSwitch) (b : Nat) : ChromatekSwitch :=
  { s with brightness := b }

/-- `GPIO.input(BUTTON_PIN)` reading the line whose instantaneous raw
level is `level`: raises the channel-not-setup `RuntimeError` when the
channel is not set up (in particular after `GPIO.cleanup()`). -/
def GPIO_input (s : ChromatekSwitch) (level : Level) : Except GpioError Level :=
  if s.gpioSetup then Except.ok level else Except.error GpioError.channelNotSetup

/-- `get_button_state()`: `GPIO.input(BUTTON_PIN) == GPIO.LOW` —
true exactly when the raw level is LOW (active-low contact). -/
def get_button_state (s : ChromatekSwitch) (level : Level) : Except GpioError Bool :=
  (GPIO_input s level).map (fun l => decide (l = Level.low))

/-- `_setup_button_events()`: guarded by `_button_event_added`, calls
`GPIO.add_event_detect(BUTTON_PIN, GPIO.BOTH, callback=..., bouncetime=200)`
and then sets the flag.  `add_event_detect` raises when the channel is
no longer set up; on success we count the call in `eventDetectCalls`.
The returned `Option GpioError` is the exception raised, if any (the
Python object mutations performed before the raise are kept in the
returned state). -/
def setup_button_events (s : ChromatekSwitch) : ChromatekSwitch × Option GpioError :=
  if s.buttonEventAdded then (s, none)
  else if s.gpioSetup then
    ({ s with eventDetectCalls := s.eventDetectCalls + 1, buttonEventAdded := true }, none)
  else (s, some GpioError.channelNotSetup)

/-- `on_button_press(callback)`: appends to `_press_callbacks`, then
calls `_setup_button_events()`. -/
def on_button_press (s : ChromatekSwitch) (cb : Nat) : ChromatekSwitch × Option GpioError :=
  setup_button_events { s with pressCallbacks := s.pressCallbacks ++ [cb] }

/-- `on_button_release(callback)`: appends to `_release_callbacks`,
then calls `_setup_button_events()`. -/
def on_button_release (s : ChromatekSwitch) (cb : Nat) : ChromatekSwitch × Option GpioError :=
  setup_button_events { s with releaseCallbacks := s.releaseCallbacks ++ [cb] }

/-- `_button_event_handler(channel)`: reads `get_button_state()` once
(at the moment the handler runs, the line shows `level`) and invokes
every callback of exactly one of the two registries, in list
(registration) order.  The result is the list of invoked callback
identifiers, or the error propagated from `get_button_state`. -/
def button_event_handler (s : ChromatekSwitch) (level : Level) :
    Except GpioError (List Nat) :=
  (get_button_state s level).map
    (fun pressed => if pressed then s.pressCallbacks else s.releaseCallbacks)

/-- `cleanup()`: `turn_off()` then `GPIO.cleanup()`.  `GPIO.cleanup()`
resets the channel setup record (so the digital input is released);
it emits only a warning when nothing is set up, so a repeated call
does not raise.  The strip handle is not touched.  `cleanupCalls`
instruments the invocation itself. -/
def cleanup (s : ChromatekSwitch) : ChromatekSwitch :=
  let s1 := turn_off s
  { s1 with gpioSetup := false, cleanupCalls := s1.cleanupCalls + 1 }

/-- Outcome of attempting to acquire the two hardware resources during
construction: whether `PixelStrip(...)`/`strip.begin()` succeeds and
whether `GPIO.setmode`/`GPIO.setup` succeeds. -/
structure HwOutcome where
  pixelOk : Bool
  inputOk : Bool
deriving DecidableEq, Repr

/-- A construction failure, recording whether the pixel-output
resource was still acquired (leaked) when the exception surfaced. -/
structure InitError where
  pixelLeaked : Bool
deriving DecidableEq, Repr

/-- `__init__(brightness)`: creates and begins the strip, then sets up
the button GPIO input and initialises the callback storage.  There is
no `try`/`except`: if `GPIO.setup` raises after the strip was begun,
the exception propagates with the strip still acquired. -/
def chromatekInit (brightness : Nat) (hw : HwOutcome) :
    Except InitError ChromatekSwitch :=
  if hw.pixelOk then
    if hw.inputOk then
      Except.ok
        { pixelColor := 0
          brightness := brightness
          pixelAcquired := true
          gpioSetup := true
          pressCallbacks := []
          releaseCallbacks := []
          buttonEventAdded := false
          eventDetectCalls := 0
          lastAccepted := none
          cleanupCalls := 0 }
    else Except.error { pixelLeaked := true }
  else Except.error { pixelLeaked := false }

/-- The facade state right after a fully successful construction with
the default brightness. -/
def freshSwitch : ChromatekSwitch :=
  { pixelColor := 0
    brightness := 255
    pixelAcquired := true
    gpioSetup := true
    pressCallbacks := []
    releaseCallbacks := []
    buttonEventAdded := false
    eventDetectCalls := 0
    lastAccepted := none
    cleanupCalls := 0 }

/-- A raw edge delivered by the GPIO event machinery: its arrival
time (ms), its direction, and the raw level the line shows when the
handler samples it via `GPIO.input`. -/
structure EdgeEvent where
  time : Nat
  dir : EdgeDir
  level : Level
deriving DecidableEq, Repr

/-- Classification of a dispatched transition, as observed from which
registry the handler invoked. -/
inductive DispatchKind where
  | pressed
  | released
deriving DecidableEq, Repr

/-- One observed dispatch: when it happened, which kind it was, and
the callbacks invoked in order. -/
structure Dispatch where
  time : Nat
  kind : DispatchKind
  invoked : List Nat
deriving DecidableEq, Repr

/-- An edge accepted by the bouncetime filter: the GPIO machinery
records its time as the last accepted edge and runs
`_button_event_handler`.  If the handler raises (channel torn down),
no callback is invoked and no dispatch is observed. -/
def acceptEdge (s : ChromatekSwitch) (e : EdgeEvent) :
    ChromatekSwitch × List Dispatch :=
  let s1 := { s with lastAccepted := some e.time }
  match button_event_handler s1 e.level with
  | Except.ok invoked =>
      (s1,
        [{ time := e.time
           kind := if e.level = Level.low then DispatchKind.pressed
                   else DispatchKind.released
           invoked := invoked }])
  | Except.error _ => (s1, [])

/-- Delivery of one raw edge through
`GPIO.add_event_detect(..., bouncetime=200)`: an edge arriving before
`BOUNCETIME` ms have passed since the last accepted edge is dropped
with no handler call and no state change; otherwise it is accepted. -/
def handleEdge (s : ChromatekSwitch) (e : EdgeEvent) :
    ChromatekSwitch × List Dispatch :=
  match s.lastAccepted with
  | some t0 =>
      if e.time < t0 + BOUNCETIME then (s, [])
      else acceptEdge s e
  | none => acceptEdge s e

/-- Deliver a sequence of raw edges in order, collecting the observed
dispatches. -/
def processEvents (s : ChromatekSwitch) :
    List EdgeEvent → ChromatekSwitch × List Dispatch
  | [] => (s, [])
  | e :: es =>
      let r := handleEdge s e
      let r2 := processEvents r.1 es
      (r2.1, r.2 ++ r2.2)

/-- Boolean check that a list of dispatch times keeps every pair at
least `BOUNCETIME` apart (each earlier time precedes each later one
by at least the debounce window). -/
def windowSeparatedB : List Nat → Bool
  | [] => true
  | a :: rest =>
      rest.all (fun b => decide (a + BOUNCETIME ≤ b)) && windowSeparatedB rest

/-- The facade right after a fresh construction and one
`on_button_press` registration of callback `0`. -/
def c1Switch : ChromatekSwitch :=
  { freshSwitch with
      pressCallbacks := [0]
      buttonEventAdded := true
      eventDetectCalls := 1 }

/-- The synthetic raw-level sequence LOW, LOW, HIGH, LOW of the spec,
all within 50 ms of each other (one debounce window). -/
def c1Events : List EdgeEvent :=
  [{ time := 0, dir := EdgeDir.falling, level := Level.low },
   { time := 10, dir := EdgeDir.rising, level := Level.low },
   { time := 20, dir := EdgeDir.rising, level := Level.high },
   { time := 30, dir := EdgeDir.falling, level := Level.low }]

/-- Result of the body of a `with ChromatekSwitch() as switch:` block:
the facade state when the body finishes, and how it finished (falling
off the end, an early `return`, or an exception identified by a
code). -/
inductive BodyRes where
  | normal (s : ChromatekSwitch)
  | earlyRet (s : ChromatekSwitch)
  | exc (s : ChromatekSwitch) (e : Nat)
deriving Repr

/-- The facade state a body result carries. -/
def bodyState : BodyRes → ChromatekSwitch
  | BodyRes.normal s => s
  | BodyRes.earlyRet s => s
  | BodyRes.exc s _ => s

/-- The exception a body result carries, if any. -/
def bodyExc : BodyRes → Option Nat
  | BodyRes.normal _ => none
  | BodyRes.earlyRet _ => none
  | BodyRes.exc _ e => some e

/-- `__exit__(exc_type, exc_val, exc_tb)`: calls `cleanup()` and
returns `None`, i.e. it never suppresses an exception.  The second
component is the truthiness of the return value. -/
def exit_handler (s : ChromatekSwitch) : ChromatekSwitch × Bool :=
  (cleanup s, false)

/-- Python `with` semantics around `__enter__`/`__exit__` for this
facade: `__enter__` returns the facade itself, the body runs, and on
every exit path `__exit__` runs exactly once; an exception propagates
unless `__exit__` returned a truthy value.  The result is the final
facade state and the exception that escapes the block, if any. -/
def runScoped (s0 : ChromatekSwitch) (body : ChromatekSwitch → BodyRes) :
    ChromatekSwitch × Option Nat :=
  match body s0 with
  | BodyRes.normal s => ((exit_handler s).1, none)
  | BodyRes.earlyRet s => ((exit_handler s).1, none)
  | BodyRes.exc s e =>
      let r := exit_handler s
      (r.1, if r.2 then none else some e)

/-- A listener registration step: which API was called and with which
callback identifier. -/
inductive Reg where
  | press (cb : Nat)
  | release (cb : Nat)
deriving DecidableEq, Repr

/-- Perform one registration call. -/
def applyReg (s : ChromatekSwitch) : Reg → ChromatekSwitch × Option GpioError
  | Reg.press cb => on_button_press s cb
  | Reg.release cb => on_button_release s cb

/-- Perform a sequence of registration calls, stopping at the first
one that raises (the exception propagates to the caller). -/
def applyRegs (s : ChromatekSwitch) :
    List Reg → ChromatekSwitch × Option GpioError
  | [] => (s, none)
  | r :: rs =>
      let res := applyReg s r
      match res.2 with
      | some e => (res.1, some e)
      | none => applyRegs res.1 rs

/-! Helper lemmas about the edge machinery. -/

/-- An accepted edge records its own time as the last accepted one,
every dispatch it produces is stamped with that time, and it produces
at most one dispatch. -/
theorem acceptEdge_spec (s : ChromatekSwitch) (e : EdgeEvent) :
    (acceptEdge s e).1.lastAccepted = some e.time
  ∧ (∀ d ∈ (acceptEdge s e).2, d.time = e.time)
  ∧ ((acceptEdge s e).2 = [] ∨ ∃ d, (acceptEdge s e).2 = [d]) := by
  simp only [acceptEdge]
  split
  · exact ⟨rfl, by simp, Or.inr ⟨_, rfl⟩⟩
  · exact ⟨rfl, by simp, Or.inl rfl⟩

/-- A delivered edge is either suppressed by the bouncetime filter
(no dispatch, no state change at all), or accepted, in which case the
last-accepted timestamp becomes its time, its dispatches (at most
one) are stamped with its time, and its time is at least one debounce
window after any previously recorded accepted edge. -/
theorem handleEdge_cases (s : ChromatekSwitch) (e : EdgeEvent) :
    (handleEdge s e = (s, []))
  ∨ ((handleEdge s e).1.lastAccepted = some e.time
     ∧ (∀ d ∈ (handleEdge s e).2, d.time = e.time)
     ∧ (∀ t0, s.lastAccepted = some t0 → t0 + BOUNCETIME ≤ e.time)
     ∧ ((handleEdge s e).2 = [] ∨ ∃ d, (handleEdge s e).2 = [d])) := by
  rw [handleEdge]
  split
  · rename_i t0 heq
    split
    · rename_i hc
      exact Or.inl rfl
    · rename_i hc
      right
      obtain ⟨h1, h2, h3⟩ := acceptEdge_spec s e
      refine ⟨h1, h2, fun t1 ht => ?_, h3⟩
      rw [heq] at ht
      injection ht with ht2
      omega
  · rename_i heq
    right
    obtain ⟨h1, h2, h3⟩ := acceptEdge_spec s e
    refine ⟨h1, h2, fun t1 ht => ?_, h3⟩
    rw [heq] at ht
    exact Option.noConfusion ht

/-- Starting from a state whose last accepted edge was at `t0`, every
dispatch produced by any further event sequence happens at least one
debounce window after `t0`. -/
theorem dispatchTimes_ge (evs : List EdgeEvent) :
    ∀ (s : ChromatekSwitch) (t0 : Nat), s.lastAccepted = some t0 →
      ∀ d ∈ (processEvents s evs).2, t0 + BOUNCETIME ≤ d.time := by
  induction evs with
  | nil => intro s t0 _ d hd; simp [processEvents] at hd
  | cons e es ih =>
    intro s t0 h d hd
    simp only [processEvents, List.mem_append] at hd
    rcases handleEdge_cases s e with heq | ⟨hla, htimes, hge, -⟩
    · rw [heq] at hd
      rcases hd with hd | hd
      · simp at hd
      · exact ih s t0 h d hd
    · have hge2 := hge t0 h
      rcases hd with hd | hd
      · have := htimes d hd
        omega
      · have h2 := ih (handleEdge s e).1 e.time hla d hd
        omega

/-- The dispatches produced by any event sequence from any state are
pairwise at least one debounce window apart. -/
theorem processEvents_windowSeparated (evs : List EdgeEvent) :
    ∀ s : ChromatekSwitch,
      windowSeparatedB ((processEvents s evs).2.map Dispatch.time) = true := by
  induction evs with
  | nil => intro s; rfl
  | cons e es ih =>
    intro s
    simp only [processEvents, List.map_append]
    rcases handleEdge_cases s e with heq | ⟨hla, htimes, _, hlen⟩
    · rw [heq]
      simp only [List.map_nil, List.nil_append]
      exact ih s
    · rcases hlen with h0 | ⟨d, hone⟩
      · rw [h0]
        simp only [List.map_nil, List.nil_append]
        exact ih _
      · rw [hone]
        simp only [List.map_cons, List.map_nil, List.cons_append, List.nil_append]
        rw [windowSeparatedB, Bool.and_eq_true]
        have hdt : d.time = e.time := htimes d (by rw [hone]; exact List.mem_singleton.mpr rfl)
        refine ⟨List.all_eq_true.mpr fun t ht => ?_, ih _⟩
        simp only [List.mem_map] at ht
        obtain ⟨d2, hd2, rfl⟩ := ht
        have := dispatchTimes_ge es _ e.time hla d2 hd2
        simp only [decide_eq_true_eq]
        omega

/-- Once the edge subscription is active, further registrations of
either kind raise nothing, never call `GPIO.add_event_detect` again,
and keep the subscription active. -/
theorem applyRegs_after_activation (rs : List Reg) :
    ∀ s : ChromatekSwitch, s.buttonEventAdded = true →
      (applyRegs s rs).2 = none
      ∧ (applyRegs s rs).1.eventDetectCalls = s.eventDetectCalls
      ∧ (applyRegs s rs).1.buttonEventAdded = true := by
  induction rs with
  | nil => intro s hb; exact ⟨rfl, rfl, hb⟩
  | cons r rs ih =>
    intro s hb
    cases r with
    | press cb =>
      simp only [applyRegs, applyReg, on_button_press, setup_button_events, hb, if_pos]
      exact ih _ rfl
    | release cb =>
      simp only [applyRegs, applyReg, on_button_release, setup_button_events, hb, if_pos]
      exact ih _ rfl

/-! Claim theorems. -/

/-- C1, counterexample to the claim as stated: the detector keeps no
recorded logical state, so a sample whose computed logical state
equals the previously dispatched state still produces a dispatch once
the debounce window has elapsed.  Raw LOW edges at t=0 and t=300 (one
window apart) produce two consecutive Pressed dispatches with no
intervening Released — impossible if same-state samples were
discarded. -/
theorem C1_counterexample :
    ((processEvents c1Switch
        [{ time := 0, dir := EdgeDir.falling, level := Level.low },
         { time := 300, dir := EdgeDir.falling, level := Level.low }]).2.map Dispatch.kind)
      = [DispatchKind.pressed, DispatchKind.pressed] := by decide

/-- C1 (amended): at most one classified event is dispatched per
debounce window — all dispatch times are pairwise at least
`BOUNCETIME` apart — and a sample arriving before the window has
elapsed since the last accepted edge is discarded with no dispatch
and no state change; for the raw-level sequence LOW, LOW, HIGH, LOW
within one window, exactly one Pressed dispatch fires (invoking the
registered press listener).  The same-state discard of the original
claim does not hold (see the counterexample): debouncing is purely
time-gated. -/
theorem C1_amended_thm (s : ChromatekSwitch) (e : EdgeEvent) (t0 : Nat)
    (h : s.lastAccepted = some t0) (he : e.time < t0 + BOUNCETIME) :
    (∀ (s2 : ChromatekSwitch) (evs : List EdgeEvent),
        windowSeparatedB ((processEvents s2 evs).2.map Dispatch.time) = true)
  ∧ handleEdge s e = (s, [])
  ∧ (processEvents c1Switch c1Events).2
      = [{ time := 0, kind := DispatchKind.pressed, invoked := [0] }] := by
  refine ⟨fun s2 evs => processEvents_windowSeparated evs s2, ?_, by decide⟩
  simp [handleEdge, h, he]

/-- C1 witness: a concrete within-window sample (t=100 after an
accepted edge at t=0) is discarded unchanged. -/
theorem C1_witness :
    handleEdge { c1Switch with lastAccepted := some 0 }
        { time := 100, dir := EdgeDir.falling, level := Level.low }
      = ({ c1Switch with lastAccepted := some 0 }, []) :=
  (C1_amended_thm { c1Switch with lastAccepted := some 0 }
      { time := 100, dir := EdgeDir.falling, level := Level.low } 0 rfl (by decide)).2.1

/-- C2, counterexample to the claim as stated: after `cleanup()`,
`set_color` does not fail with any error — it succeeds and commits a
nonzero color to the still-held pixel handle. -/
theorem C2_counterexample :
    (set_color (cleanup freshSwitch) 255 0 0).pixelColor = Color 255 0 0
  ∧ Color 255 0 0 ≠ 0 := by
  refine ⟨rfl, ?_⟩
  simp [Color, Nat.shiftLeft_eq]

/-- C2 (amended): after `cleanup()`, LED operations (`set_color`,
`set_brightness`) still succeed and commit their values, because the
pixel handle is never released; `get_button_state` and an activating
listener registration fail with the GPIO channel-not-setup runtime
error — not with a distinguished DeviceUnavailable error. -/
theorem C2_amended_thm (s : ChromatekSwitch) (r g b bb : Nat) (level : Level) (cb : Nat)
    (hb : s.buttonEventAdded = false) :
    (set_color (cleanup s) r g b).pixelColor = Color r g b
  ∧ (set_brightness (cleanup s) bb).brightness = bb
  ∧ get_button_state (cleanup s) level = Except.error GpioError.channelNotSetup
  ∧ (on_button_press (cleanup s) cb).2 = some GpioError.channelNotSetup := by
  refine ⟨rfl, rfl, ?_, ?_⟩
  · simp [get_button_state, GPIO_input, cleanup, turn_off, set_color, Except.map]
  · simp [on_button_press, setup_button_events, cleanup, turn_off, set_color, hb]

/-- C2 witness: the amended behaviour at concrete inputs on a freshly
constructed facade. -/
theorem C2_witness :
    (set_color (cleanup freshSwitch) 1 2 3).pixelColor = Color 1 2 3
  ∧ (set_brightness (cleanup freshSwitch) 7).brightness = 7
  ∧ get_button_state (cleanup freshSwitch) Level.low
      = Except.error GpioError.channelNotSetup
  ∧ (on_button_press (cleanup freshSwitch) 0).2 = some GpioError.channelNotSetup :=
  C2_amended_thm freshSwitch 1 2 3 7 Level.low 0 rfl

/-- C3, counterexample to the claim as stated: when pixel-output
acquisition succeeds and digital-input acquisition fails, the error
surfaces with the pixel resource still acquired — the handle is
leaked, not released. -/
theorem C3_counterexample :
    chromatekInit 255 { pixelOk := true, inputOk := false }
      = Except.error { pixelLeaked := true } := rfl

/-- C3 (amended): if pixel-output acquisition succeeds and input
acquisition fails, construction fails as a whole — no facade instance
is produced — but the already-acquired pixel-output resource is not
released before the error is surfaced: the handle leaks. -/
theorem C3_amended_thm (b : Nat) (hw : HwOutcome)
    (hp : hw.pixelOk = true) (hi : hw.inputOk = false) :
    chromatekInit b hw = Except.error { pixelLeaked := true }
  ∧ ∀ s, chromatekInit b hw ≠ Except.ok s := by
  refine ⟨?_, ?_⟩
  · simp [chromatekInit, hp, hi]
  · intro s
    simp [chromatekInit, hp, hi]

/-- C3 witness: the amended behaviour at a concrete brightness and
hardware outcome. -/
theorem C3_witness :
    chromatekInit 128 { pixelOk := true, inputOk := false }
      = Except.error { pixelLeaked := true }
  ∧ ∀ s, chromatekInit 128 { pixelOk := true, inputOk := false } ≠ Except.ok s :=
  C3_amended_thm 128 { pixelOk := true, inputOk := false } rfl rfl

/-- C4 (confirmed): under scoped use, every exit path — normal exit,
early return, and a propagated exception — triggers exactly one
`cleanup()` call beyond whatever the body itself did, and `__exit__`
never suppresses the exception (it propagates unchanged). -/
theorem C4_scoped_single_cleanup (s0 : ChromatekSwitch)
    (body : ChromatekSwitch → BodyRes) :
    (runScoped s0 body).1.cleanupCalls = (bodyState (body s0)).cleanupCalls + 1
  ∧ (runScoped s0 body).2 = bodyExc (body s0) := by
  cases h : body s0 <;>
    simp [runScoped, exit_handler, cleanup, turn_off, set_color, bodyState, bodyExc, h]

/-- C5, counterexample to the claim as stated: `cleanup()` does not
release both underlying resources — after it runs on a fresh facade,
the pixel-output handle is still acquired. -/
theorem C5_counterexample :
    (cleanup freshSwitch).pixelAcquired = true := rfl

/-- C5 (amended): `cleanup()` turns the LED off (committed color 0)
and then releases the digital-input resource only; the pixel-output
handle is left untouched.  A second call is a deterministic
idempotent no-op — it raises nothing, leaves the LED off, the input
released, and the brightness unchanged — and the LED color is zero
after the first call. -/
theorem C5_amended_thm (s : ChromatekSwitch) :
    (cleanup s).pixelColor = 0
  ∧ (cleanup s).gpioSetup = false
  ∧ (cleanup s).pixelAcquired = s.pixelAcquired
  ∧ (cleanup (cleanup s)).pixelColor = 0
  ∧ (cleanup (cleanup s)).gpioSetup = false
  ∧ (cleanup (cleanup s)).brightness = (cleanup s).brightness := by
  have hz : Color 0 0 0 = 0 := by simp [Color, Nat.shiftLeft_eq]
  exact ⟨hz, rfl, rfl, hz, rfl, rfl⟩

/-- C6, counterexample to the claim as stated: the out-of-range
channel value 300 is not rejected with any error — `set_color` packs
and commits it, changing the previously committed color, and
`set_brightness` forwards 300, changing the committed brightness. -/
theorem C6_counterexample :
    (set_color freshSwitch 300 0 0).pixelColor = Color 300 0 0
  ∧ Color 300 0 0 ≠ freshSwitch.pixelColor
  ∧ (set_brightness freshSwitch 300).brightness = 300
  ∧ (300 : Nat) ≠ freshSwitch.brightness := by
  refine ⟨rfl, ?_, rfl, ?_⟩
  · simp [Color, Nat.shiftLeft_eq, freshSwitch]
  · simp [freshSwitch]

/-- C6 (amended): `set_color` and `set_brightness` perform no range
validation and never raise: every argument, in range or not, is
packed/forwarded and committed immediately, replacing the previously
committed color or brightness; `set_color` leaves the brightness
unchanged and `set_brightness` leaves the color unchanged. -/
theorem C6_amended_thm (s : ChromatekSwitch) (r g b bb : Nat) :
    (set_color s r g b).pixelColor = Color r g b
  ∧ (set_color s r g b).brightness = s.brightness
  ∧ (set_brightness s bb).brightness = bb
  ∧ (set_brightness s bb).pixelColor = s.pixelColor :=
  ⟨rfl, rfl, rfl, rfl⟩

/-- C7 (confirmed): one Pressed dispatch after registering press
listeners `a`, `b`, `c` invokes exactly the press registry in
registration order — each listener once per occurrence, duplicates
included (take `a = c`) — and never touches the release registry;
registration itself raises nothing once the subscription is active. -/
theorem C7_dispatch_order (s : ChromatekSwitch) (a b c : Nat)
    (hg : s.gpioSetup = true) (hb : s.buttonEventAdded = true) :
    ((on_button_press ((on_button_press ((on_button_press s a).1) b).1) c).2 = none)
  ∧ button_event_handler
      ((on_button_press ((on_button_press ((on_button_press s a).1) b).1) c).1) Level.low
      = Except.ok (s.pressCallbacks ++ [a, b, c])
  ∧ button_event_handler
      ((on_button_press ((on_button_press ((on_button_press s a).1) b).1) c).1) Level.high
      = Except.ok s.releaseCallbacks := by
  simp [on_button_press, setup_button_events, hb, hg, button_event_handler,
    get_button_state, GPIO_input, Except.map]

/-- C7 witness: registering listeners 1, 2 and 1 again (a duplicate)
on the one-listener facade and dispatching Pressed invokes
`[0, 1, 2, 1]` — the duplicate twice, in registration order. -/
theorem C7_witness :
    ((on_button_press ((on_button_press ((on_button_press c1Switch 1).1) 2).1) 1).2 = none)
  ∧ button_event_handler
      ((on_button_press ((on_button_press ((on_button_press c1Switch 1).1) 2).1) 1).1) Level.low
      = Except.ok (c1Switch.pressCallbacks ++ [1, 2, 1])
  ∧ button_event_handler
      ((on_button_press ((on_button_press ((on_button_press c1Switch 1).1) 2).1) 1).1) Level.high
      = Except.ok c1Switch.releaseCallbacks :=
  C7_dispatch_order c1Switch 1 2 1 rfl rfl

/-- C8 (confirmed): any nonempty sequence of registrations (any mix
of press and release) on a fresh facade raises nothing, calls
`GPIO.add_event_detect` exactly once, and leaves the subscription
active; no later registration activates it a second time. -/
theorem C8_single_activation (regs : List Reg) (hne : regs ≠ []) :
    (applyRegs freshSwitch regs).2 = none
  ∧ (applyRegs freshSwitch regs).1.eventDetectCalls = 1
  ∧ (applyRegs freshSwitch regs).1.buttonEventAdded = true := by
  cases regs with
  | nil => exact absurd rfl hne
  | cons r rs =>
    have hfirst : (applyReg freshSwitch r).2 = none
        ∧ (applyReg freshSwitch r).1.eventDetectCalls = 1
        ∧ (applyReg freshSwitch r).1.buttonEventAdded = true := by
      cases r <;>
        simp [applyReg, on_button_press, on_button_release, setup_button_events, freshSwitch]
    obtain ⟨h1, h2, h3⟩ := hfirst
    have hrest := applyRegs_after_activation rs (applyReg freshSwitch r).1 h3
    simp only [applyRegs, h1]
    refine ⟨hrest.1, ?_, hrest.2.2⟩
    rw [hrest.2.1]
    exact h2

/-- C8 witness: a single press registration activates the edge
subscription exactly once. -/
theorem C8_witness :
    (applyRegs freshSwitch [Reg.press 0]).2 = none
  ∧ (applyRegs freshSwitch [Reg.press 0]).1.eventDetectCalls = 1
  ∧ (applyRegs freshSwitch [Reg.press 0]).1.buttonEventAdded = true :=
  C8_single_activation [Reg.press 0] (by simp)

/-- C9 (confirmed): on a live facade, `get_button_state` returns true
exactly when the raw level is LOW, and the result depends only on the
instantaneous raw level — any other facade state with the same
channel liveness (whatever its debounce timestamp or listener
registries) reads the same value. -/
theorem C9_active_low (s s2 : ChromatekSwitch) (level : Level)
    (hg : s.gpioSetup = true) (hp : s2.gpioSetup = s.gpioSetup) :
    (get_button_state s level = Except.ok true ↔ level = Level.low)
  ∧ get_button_state s2 level = get_button_state s level := by
  constructor
  · simp [get_button_state, GPIO_input, hg, Except.map]
  · simp [get_button_state, GPIO_input, hp]

/-- C9 witness: the fresh facade and the one-listener facade (which
differ in listener registry and subscription state) read LOW as
pressed identically. -/
theorem C9_witness :
    (get_button_state freshSwitch Level.low = Except.ok true ↔ Level.low = Level.low)
  ∧ get_button_state c1Switch Level.low = get_button_state freshSwitch Level.low :=
  C9_active_low freshSwitch c1Switch Level.low rfl rfl

/-- C10 (confirmed): the transition kind dispatched is determined by
the raw level sampled when the handler runs, not by which edge
direction triggered the notification — two deliveries differing only
in edge direction are handled identically — and the handler invokes
exactly the press registry when the sample reads LOW and exactly the
release registry when it reads HIGH, never both. -/
theorem C10_level_decides (s : ChromatekSwitch) (e1 e2 : EdgeEvent)
    (hg : s.gpioSetup = true) (ht : e1.time = e2.time) (hl : e1.level = e2.level) :
    handleEdge s e1 = handleEdge s e2
  ∧ button_event_handler s Level.low = Except.ok s.pressCallbacks
  ∧ button_event_handler s Level.high = Except.ok s.releaseCallbacks := by
  refine ⟨?_, ?_, ?_⟩
  · simp only [handleEdge, acceptEdge, ht, hl]
  · simp [button_event_handler, get_button_state, GPIO_input, hg, Except.map]
  · simp [button_event_handler, get_button_state, GPIO_input, hg, Except.map]

/-- C10 witness: a rising-edge and a falling-edge delivery that
sample the same LOW level at the same time are handled identically,
and the dispatch goes to the press registry. -/
theorem C10_witness :
    handleEdge c1Switch { time := 0, dir := EdgeDir.rising, level := Level.low }
      = handleEdge c1Switch { time := 0, dir := EdgeDir.falling, level := Level.low }
  ∧ button_event_handler c1Switch Level.low = Except.ok c1Switch.pressCallbacks
  ∧ button_event_handler c1Switch Level.high = Except.ok c1Switch.releaseCallbacks :=
  C10_level_decides c1Switch
    { time := 0, dir := EdgeDir.rising, level := Level.low }
    { time := 0, dir := EdgeDir.falling, level := Level.low } rfl rfl rfl

end Chromatek
